import Mathlib

/-!
A shallow embedding of the grapple pipeline script (src/grapple.py), a linear
orchestration of external genomics tools.  File-path manipulation mirrors the
CPython `os.path` (posixpath) functions the script calls, format checks mirror
the script's `re.match` tests (which anchor at the start of the string only, so
they are prefix tests), and each stage function is embedded as a pure function
returning the stage's result (output path or the `ValueError` message it
raises) together with the list of external subprocess invocations it performs,
each with its argv vector and the destinations its stdout and stderr handles
are wired to.  Filesystem state is passed in explicitly (an `isfile` predicate
and, for the consensus formatter, the file's lines); character case mapping is
modelled for ASCII, which is the alphabet of the pipeline's FASTA/FASTQ data.
-/

namespace Grapple

/-- Model of `os.path.basename` / `os.path.split(p)[1]` for POSIX paths: the
characters after the last slash. -/
def basenameChars (l : List Char) : List Char :=
  l.foldl (fun acc c => if c = '/' then [] else acc ++ [c]) []

/-- The basename of a path, as a string (`os.path.split(read_file)[1]`,
grapple.py line 134). -/
def pyBasename (p : String) : String :=
  String.mk (basenameChars p.data)

/-- The characters of the extension of a basename `b`: everything from the
last dot on, or empty when `b` has no dot, or no character other than dots
before its last dot.  `b.reverse.takeWhile (· ≠ '.')` is the reversed run of
characters after the last dot; its length equals `b.length` exactly when `b`
has no dot at all. -/
def extChars (b : List Char) : List Char :=
  if (b.reverse.takeWhile (fun c => c ≠ '.')).length = b.length then []
  else if (b.take (b.length - (b.reverse.takeWhile (fun c => c ≠ '.')).length - 1)).any
      (fun c => c ≠ '.') then
    List.cons '.' (b.reverse.takeWhile (fun c => c ≠ '.')).reverse
  else []

/-- Model of `os.path.splitext(p)[1]`: the extension starting at the last dot
of the basename, empty when the basename has no dot or only dots before its
last dot (posixpath semantics: `splitext('.bashrc') = ('.bashrc', '')`). -/
def pySplitextExt (p : String) : String :=
  String.mk (extChars (basenameChars p.data))

/-- Model of `os.path.join(a, b)` for POSIX paths with two components. -/
def pyJoin (a b : String) : String :=
  if b.data.head? = some '/' then b
  else if a.data = [] then b
  else if a.data.getLast? = some '/' then a ++ b
  else a ++ "/" ++ b

/-- `True` when `p` is a leading substring of `s`: the semantics of a
successful `re.match` against a regex made of literal alternatives, which
anchors at the start of the string but not at the end. -/
def startsWithStr (s p : String) : Bool :=
  p.data.isPrefixOf s.data

/-- ASCII uppercasing of one line, modelling `str.upper()` (grapple.py
line 314). -/
def upperStr (s : String) : String :=
  String.mk (s.data.map Char.toUpper)

/-- The four artifact format tags whose extensions the stages test. -/
inductive Format where
  | BAM
  | FASTQ
  | FASTA
  | SAM
deriving DecidableEq

/-- The extension tests the stage functions run before launching any
subprocess.  BAM and SAM are exact string comparisons of the extension
(grapple.py lines 73, 193, 221, 258); FASTQ and FASTA are `re.match` calls
with patterns `\.((fastq)|(fq))` and `\.((fa)|(fna)|(fasta))` (lines 103, 153,
156, 261, 300), which only anchor at the start and therefore accept any
extension that merely begins with one of the alternatives. -/
def formatCheck : Format → String → Bool
  | Format.BAM, p => pySplitextExt p = ".bam"
  | Format.FASTQ, p =>
      startsWithStr (pySplitextExt p) ".fastq" || startsWithStr (pySplitextExt p) ".fq"
  | Format.FASTA, p =>
      startsWithStr (pySplitextExt p) ".fa" || startsWithStr (pySplitextExt p) ".fna" ||
        startsWithStr (pySplitextExt p) ".fasta"
  | Format.SAM, p => pySplitextExt p = ".sam"

/-- Destination a subprocess handle is wired to: a named file opened for
writing, the pipeline process's own stderr, the discard sink
(`open(os.devnull, 'w')`), or the pipeline process's own stdout.  The last
constructor exists so that "no tool stream is ever routed to the pipeline's
stdout" is a statement, not a typing accident; no stage produces it. -/
inductive Sink where
  | file : String → Sink
  | pipelineStderr : Sink
  | devnull : Sink
  | userStdout : Sink
deriving DecidableEq

/-- `err_handle = sys.stderr if verbose else null_handle`, the idiom every
stage uses (grapple.py lines 82, 124, 168, 201, 233, 271). -/
def errSink (verbose : Bool) : Sink :=
  if verbose then Sink.pipelineStderr else Sink.devnull

/-- One `subprocess.check_call` invocation: the argv vector and the sinks its
stdout and stderr are redirected to. -/
structure Invocation where
  argv : List String
  stdout : Sink
  stderr : Sink
deriving DecidableEq

deriving instance DecidableEq for Except

/-- Result of one stage function: the output artifact path, or the message of
the `ValueError` the stage raises, together with every subprocess invocation
the stage performed before returning or raising. -/
structure StageOut where
  result : Except String String
  procs : List Invocation
deriving DecidableEq

/-- Temp-artifact path construction, the idiom
`os.path.join(tempfile.gettempdir(), prefix_id + name)` used at grapple.py
lines 77, 162, 163, 196, 227, 228, 264, 265, 266, 303, 342. -/
def tempPath (td pfxId base : String) : String :=
  pyJoin td (pfxId ++ base)

/-- `bam_to_fq` (grapple.py lines 61-87): convert BAM reads to FASTQ with
`samtools bam2fq`, whose stdout is the semantic output and is redirected into
the output artifact file. -/
def bam_to_fq (td readFile pfxId : String) (verbose : Bool) : StageOut :=
  if formatCheck Format.BAM readFile then
    let ofile := tempPath td pfxId "bam_to_fq_out.fq"
    { result := Except.ok ofile,
      procs := [{ argv := ["samtools", "bam2fq", readFile],
                  stdout := Sink.file ofile, stderr := errSink verbose }] }
  else
    { result := Except.error "The read file is not in BAM format", procs := [] }

/-- `read_correction` (grapple.py lines 90-137): correct FASTQ reads with
karect.  After the format test it checks that the file exists, then that the
two enumerated parameters match `(haploid)|(diploid)` and
`(edit)|(hamming)|(insdel)` (again unanchored `re.match` prefix tests).
Karect prints user information on stdout, so the script routes the tool's
stdout and stderr both to the verbosity-selected sink.  The thread count and
the memory budget are probed from the host and rendered to strings; the
embedding takes the rendered strings as parameters. -/
def read_correction (td readFile cellType matchType : String) (verbose : Bool)
    (isfile : String → Bool) (threadStr memStr : String) : StageOut :=
  if !(formatCheck Format.FASTQ readFile) then
    { result := Except.error "The read file is not in FASTQ format", procs := [] }
  else if !(isfile readFile) then
    { result := Except.error "The read file doesn\x27t exist", procs := [] }
  else if !(startsWithStr cellType "haploid" || startsWithStr cellType "diploid") then
    { result := Except.error "The cell type is not a valid value", procs := [] }
  else if !(startsWithStr matchType "edit" || startsWithStr matchType "hamming" ||
      startsWithStr matchType "insdel") then
    { result := Except.error "The match type is not a valid value", procs := [] }
  else
    { result := Except.ok (pyJoin td ("karect_" ++ pyBasename readFile)),
      procs := [{ argv := ["karect", "-correct", "-inputfile=" ++ readFile,
                           "-celltype=" ++ cellType, "-matchtype=" ++ matchType,
                           "-threads=" ++ threadStr, "-memory=" ++ memStr,
                           "-resultdir=" ++ td, "-tempdir=" ++ td],
                  stdout := errSink verbose, stderr := errSink verbose }] }

/-- `read_alignment` (grapple.py lines 140-178): build a bowtie2 index from
the reference, then align; bowtie2's stdout is the SAM output and goes to the
artifact file, while the index builder's stdout is always discarded. -/
def read_alignment (td readFile refGenomeFile pfxId : String) (verbose : Bool)
    (threadStr : String) : StageOut :=
  if !(formatCheck Format.FASTQ readFile) then
    { result := Except.error "The read file is not in FASTQ format", procs := [] }
  else if !(formatCheck Format.FASTA refGenomeFile) then
    { result := Except.error "The reference genome file is not in FASTA format", procs := [] }
  else
    let indexPath := tempPath td pfxId "bt2_index"
    let ofile := tempPath td pfxId "aligned_reads.sam"
    { result := Except.ok ofile,
      procs := [{ argv := ["bowtie2-build", refGenomeFile, indexPath],
                  stdout := Sink.devnull, stderr := errSink verbose },
                { argv := ["bowtie2", "-p", threadStr, "-x", indexPath, "-U", readFile],
                  stdout := Sink.file ofile, stderr := errSink verbose }] }

/-- `sam_to_bam` (grapple.py lines 181-206): `samtools view -bo` writes the
BAM artifact itself via the `-bo` flag; the tool's stdout is always
discarded. -/
def sam_to_bam (td readFile pfxId : String) (verbose : Bool) : StageOut :=
  if formatCheck Format.SAM readFile then
    let ofile := tempPath td pfxId "aligned_reads.bam"
    { result := Except.ok ofile,
      procs := [{ argv := ["samtools", "view", "-bo", ofile, readFile],
                  stdout := Sink.devnull, stderr := errSink verbose }] }
  else
    { result := Except.error "The read file is not in SAM format", procs := [] }

/-- `sort_and_index` (grapple.py lines 209-242): sort then index the BAM
file; both tools' stdout is always discarded. -/
def sort_and_index (td readFile pfxId : String) (verbose : Bool)
    (threadStr : String) : StageOut :=
  if formatCheck Format.BAM readFile then
    let sortTmp := tempPath td pfxId "samtools_sorting"
    let ofile := tempPath td pfxId "sorted_reads.bam"
    { result := Except.ok ofile,
      procs := [{ argv := ["samtools", "sort", "-o", ofile, "-@", threadStr,
                           "-T", sortTmp, readFile],
                  stdout := Sink.devnull, stderr := errSink verbose },
                { argv := ["samtools", "index", ofile],
                  stdout := Sink.devnull, stderr := errSink verbose }] }
  else
    { result := Except.error "The read file is not in BAM format", procs := [] }

/-- `call_variants` (grapple.py lines 245-288): pileup, call, index,
consensus.  Note the routing of `bcftools call`: its stdout goes to the
verbosity-selected sink and its stderr is always discarded (line 278), the
mirror image of every other tool in this stage. -/
def call_variants (td readFile refGenomeFile pfxId : String) (verbose : Bool) : StageOut :=
  if !(formatCheck Format.BAM readFile) then
    { result := Except.error "The read file is not in BAM format", procs := [] }
  else if !(formatCheck Format.FASTA refGenomeFile) then
    { result := Except.error "The reference genome file is not in FASTA format", procs := [] }
  else
    let pileup := tempPath td pfxId "pileup.vcf"
    let variants := tempPath td pfxId "variants.vcf"
    let ofile := tempPath td pfxId "consensus.fa"
    { result := Except.ok ofile,
      procs := [{ argv := ["samtools", "mpileup", "-uf", refGenomeFile, "-o", pileup, readFile],
                  stdout := Sink.devnull, stderr := errSink verbose },
                { argv := ["bcftools", "call", "-mv", "-Oz", "-o", variants, pileup],
                  stdout := errSink verbose, stderr := Sink.devnull },
                { argv := ["bcftools", "index", variants],
                  stdout := Sink.devnull, stderr := errSink verbose },
                { argv := ["bcftools", "consensus", "-f", refGenomeFile, "-o", ofile, variants],
                  stdout := Sink.devnull, stderr := errSink verbose }] }

/-- The per-line transform of the consensus formatter (grapple.py lines
309-314): a line matching `^>` is written unchanged, any other line is
uppercased. -/
def formatLine (l : String) : String :=
  if startsWithStr l ">" then l else upperStr l

/-- `format_consensus` (grapple.py lines 291-316): validate the FASTA
extension, then rewrite the file line by line into the formatted artifact.
It launches no subprocess; the embedding returns the output path together
with the lines written to it. -/
def format_consensus (td consensusFile pfxId : String) (content : List String) :
    Except String (String × List String) :=
  if formatCheck Format.FASTA consensusFile then
    Except.ok (tempPath td pfxId "formatted_consensus.fa", content.map formatLine)
  else
    Except.error "The consensus file is not in FASTA format"

/-- How one run of `main` ends: normal completion, Ctrl-C, a `ValueError`
carrying a message, an `IOError`/`EnvironmentError`, or a
`CalledProcessError` carrying the failing argv. -/
inductive Outcome where
  | success : Outcome
  | interrupt : Outcome
  | valueError : String → Outcome
  | environmentError : Outcome
  | processError : List String → Outcome
deriving DecidableEq

/-- The stage-specific message `main` prints for a `CalledProcessError`,
reconstructed from `e.cmd[0]` and `e.cmd[1]` (grapple.py lines 415-450).
`none` models the handler arms that fall through without calling `error`. -/
def cmdMessage (cmd : List String) : Option String :=
  if cmd.head? = some "samtools" then
    match cmd[1]? with
    | some "bam2fq" => some "The reads could not be converted from BAM to FASTQ format"
    | some "view" => some "The reads could not be converted from SAM format to BAM format"
    | some "sort" => some "The read file could not be sorted"
    | some "index" => some "The sorted reads could not be indexed"
    | some "mpileup" => some "The reads could not be processed by mpileup before being called"
    | _ => none
  else if cmd.head? = some "karect" then
    some "The reads could not be corrected"
  else if cmd.head? = some "bowtie2-build" then
    some "An index could not be constructed from the reference genome provided"
  else if cmd.head? = some "bowtie2" then
    some "The reads could not be aligned to the reference genome"
  else if cmd.head? = some "bcftools" then
    match cmd[1]? with
    | some "call" => some "The variants could not be called"
    | some "index" => some "The variant index could not be constructed"
    | some "consensus" => some "A consensus could not be generated from the variants"
    | _ => none
  else none

/-- The process exit contract of `main` (grapple.py lines 24-41 and 402-450):
`error` prints its message to stderr and exits with status 1; on success
`main` returns and the interpreter exits with status 0.  The result is the
exit status paired with the message printed to stderr (`none` when nothing is
printed).  A `KeyboardInterrupt` calls `error('')`: status 1, empty message.
A `CalledProcessError` whose command matches no handler arm falls through,
so `main` returns normally and the process exits 0 with no message. -/
def exitOf : Outcome → Nat × Option String
  | Outcome.success => (0, none)
  | Outcome.interrupt => (1, some "")
  | Outcome.valueError m => (1, some m)
  | Outcome.environmentError =>
      (1, some ("An error has occurred. Please ensure the input and reference files exist " ++
        "and all of the required utilities are installed in your PATH"))
  | Outcome.processError cmd =>
      match cmdMessage cmd with
      | some m => (1, some m)
      | none => (0, none)

/-- The command-line argument record `main` receives (grapple.py lines
453-488): argparse yields `ref`, `input` and `output` as `None` or a string,
`ploidy` constrained to `n`/`2n`, `mode` to `equal`/`indel`/`subs`, and the
two boolean flags. -/
structure Args where
  ref : Option String
  input : Option String
  output : Option String
  disableEc : Bool
  ploidy : String
  mode : String
  verbose : Bool

/-- Sequencing helper for the orchestrator: run the continuation on the
stage's output path, accumulating the stage's subprocess invocations; a stage
`ValueError` aborts the run with that message. -/
def andThen (acc : List Invocation) (s : StageOut)
    (k : String → List Invocation → Outcome × List Invocation) : Outcome × List Invocation :=
  match s.result with
  | Except.error m => (Outcome.valueError m, acc ++ s.procs)
  | Except.ok p => k p (acc ++ s.procs)

/-- The body of `main` (grapple.py lines 319-400) on the non-interrupt path,
assuming every launched subprocess itself succeeds: acquire the input (file or
a temp dump of stdin), then thread the artifacts through the seven stages in
order, accumulating every subprocess invocation performed.  `rid` is the
value of `random.getrandbits(32)` (line 331), rendered with `str` into the
leading piece of every temp-file name; `isfile` is the `os.path.isfile` view of the
filesystem; `content` is what the consensus file holds when the formatter
reads it back. -/
def runMain (td : String) (rid : Nat) (args : Args) (isfile : String → Bool)
    (threadStr memStr : String) (content : List String) : Outcome × List Invocation :=
  match args.ref with
  | none => (Outcome.valueError "A reference genome was not provided so the pipeline cannot execute", [])
  | some ref =>
    if !(isfile ref) then (Outcome.environmentError, [])
    else
      let pfxId := Nat.repr rid ++ "_"
      let ifileRes : Except Unit String :=
        match args.input with
        | some inp => if isfile inp then Except.ok inp else Except.error ()
        | none => Except.ok (tempPath td pfxId "stdin_dump.bam")
      match ifileRes with
      | Except.error _ => (Outcome.environmentError, [])
      | Except.ok ifile =>
        andThen [] (bam_to_fq td ifile pfxId args.verbose) (fun rawReads acc1 =>
          let corrected : StageOut :=
            if args.disableEc then { result := Except.ok rawReads, procs := [] }
            else
              let cellType := if args.ploidy = "n" then "haploid" else "diploid"
              let matchType :=
                if args.mode = "equal" then "edit"
                else if args.mode = "indel" then "insdel"
                else "hamming"
              read_correction td rawReads cellType matchType args.verbose isfile threadStr memStr
          andThen acc1 corrected (fun correctedReads acc2 =>
            andThen acc2 (read_alignment td correctedReads ref pfxId args.verbose threadStr)
              (fun aligned acc3 =>
                andThen acc3 (sam_to_bam td aligned pfxId args.verbose) (fun bamReads acc4 =>
                  andThen acc4 (sort_and_index td bamReads pfxId args.verbose threadStr)
                    (fun sorted acc5 =>
                      andThen acc5 (call_variants td sorted ref pfxId args.verbose)
                        (fun consensus acc6 =>
                          match format_consensus td consensus pfxId content with
                          | Except.error m => (Outcome.valueError m, acc6)
                          | Except.ok _ => (Outcome.success, acc6)))))))

/-- The number of distinct run identifiers `random.getrandbits(32)` can
produce (grapple.py line 331): the identifiers are exactly the naturals below
`2 ^ 32`. -/
def runIdCount : Nat := 2 ^ 32

/-- The number of batches of `n` run identifiers that are pairwise distinct,
out of the `runIdCount ^ n` equally likely batches: the falling factorial. -/
def collisionFreeBatches (n : Nat) : Nat := Nat.descFactorial runIdCount n

end Grapple

namespace Grapple

/-! ### Helper lemmas about the path model -/

theorem basenameChars_foldl (l : List Char) (hl : ∀ c ∈ l, c ≠ '/') :
    ∀ acc : List Char,
      l.foldl (fun a c => if c = '/' then [] else a ++ [c]) acc = acc ++ l := by
  induction l with
  | nil => intro acc; simp
  | cons c cs ih =>
    intro acc
    have hc : c ≠ '/' := hl c (by simp)
    simp only [List.foldl_cons, if_neg hc]
    rw [ih (fun d hd => hl d (by simp [hd]))]
    simp

theorem basenameChars_no_slash (l : List Char) (hl : ∀ c ∈ l, c ≠ '/') :
    basenameChars l = l := by
  unfold basenameChars
  simpa using basenameChars_foldl l hl []

theorem basenameChars_after_slash (xs n : List Char) (hn : ∀ c ∈ n, c ≠ '/') :
    basenameChars (xs ++ '/' :: n) = n := by
  unfold basenameChars
  rw [show xs ++ '/' :: n = (xs ++ ['/']) ++ n by simp]
  rw [List.foldl_append, List.foldl_append]
  simp only [List.foldl_cons, List.foldl_nil, if_pos rfl]
  simpa using basenameChars_foldl n hn []

theorem basename_pyJoin (td n : String) (hn : ∀ c ∈ n.data, c ≠ '/') :
    basenameChars (pyJoin td n).data = n.data := by
  unfold pyJoin
  by_cases h1 : n.data.head? = some '/'
  · obtain ⟨ys, hys⟩ := List.head?_eq_some_iff.1 h1
    have h : ('/' : Char) ≠ '/' := hn '/' (by simp [hys])
    exact absurd rfl h
  · rw [if_neg h1]
    by_cases h2 : td.data = []
    · rw [if_pos h2]
      exact basenameChars_no_slash n.data hn
    · rw [if_neg h2]
      by_cases h3 : td.data.getLast? = some '/'
      · rw [if_pos h3]
        obtain ⟨ys, hys⟩ := List.getLast?_eq_some_iff.1 h3
        rw [String.data_append, hys]
        rw [show (ys ++ ['/']) ++ n.data = ys ++ '/' :: n.data by simp]
        exact basenameChars_after_slash ys n.data hn
      · rw [if_neg h3]
        rw [String.data_append, String.data_append]
        rw [show (td.data ++ "/".data) ++ n.data = td.data ++ '/' :: n.data by simp]
        exact basenameChars_after_slash td.data n.data hn

theorem extChars_of_shape (root ext : List Char)
    (hroot : root.any (fun c => c ≠ '.') = true)
    (hext : ∀ c ∈ ext, c ≠ '.') :
    extChars (root ++ '.' :: ext) = '.' :: ext := by
  unfold extChars
  have hrev : (root ++ '.' :: ext).reverse = ext.reverse ++ '.' :: root.reverse := by
    simp
  have htw : ((root ++ '.' :: ext).reverse.takeWhile (fun c => decide (c ≠ '.'))) =
      ext.reverse := by
    rw [hrev]
    rw [List.takeWhile_append_of_pos (by intro a ha; simpa using hext a (by simpa using ha))]
    simp [List.takeWhile_cons]
  rw [htw]
  have hlen : ext.reverse.length = ext.length := List.length_reverse ext
  have hblen : (root ++ '.' :: ext).length = root.length + (ext.length + 1) := by simp
  rw [if_neg (by omega)]
  have htake : (root ++ '.' :: ext).take ((root ++ '.' :: ext).length - ext.reverse.length - 1) =
      root := by
    have h : (root ++ '.' :: ext).length - ext.reverse.length - 1 = root.length := by
      rw [hlen, hblen]; omega
    rw [h]
    exact List.take_left' rfl
  rw [htake, if_pos hroot, List.reverse_reverse]

theorem pySplitextExt_tempPath (td pfxId stem ext : String)
    (hp : ∀ c ∈ pfxId.data, c ≠ '/' ∧ c ≠ '.')
    (hs : ∀ c ∈ stem.data, c ≠ '/' ∧ c ≠ '.')
    (hsne : stem.data ≠ [])
    (he : ∀ c ∈ ext.data, c ≠ '/' ∧ c ≠ '.') :
    pySplitextExt (tempPath td pfxId (stem ++ "." ++ ext)) = "." ++ ext := by
  have hdat : (pfxId ++ (stem ++ "." ++ ext)).data =
      (pfxId.data ++ stem.data) ++ '.' :: ext.data := by
    simp [String.data_append]
  have hn : ∀ c ∈ (pfxId ++ (stem ++ "." ++ ext)).data, c ≠ '/' := by
    rw [hdat]
    intro c hc
    rcases List.mem_append.1 hc with h | h
    · rcases List.mem_append.1 h with h1 | h1
      · exact (hp c h1).1
      · exact (hs c h1).1
    · rcases List.mem_cons.1 h with h1 | h1
      · subst h1; decide
      · exact (he c h1).1
  have hroot : ((pfxId.data ++ stem.data).any (fun c => decide (c ≠ '.'))) = true := by
    obtain ⟨c, hc⟩ := List.exists_mem_of_ne_nil stem.data hsne
    apply List.any_eq_true.2
    exact ⟨c, List.mem_append_right _ hc, by simpa using (hs c hc).2⟩
  have hext : ∀ c ∈ ext.data, c ≠ '.' := fun c hc => (he c hc).2
  unfold tempPath pySplitextExt
  rw [basename_pyJoin td _ hn, hdat]
  rw [extChars_of_shape (pfxId.data ++ stem.data) ext.data hroot hext]
  apply String.ext
  simp [String.data_append]

/-! ### Helper lemmas about decimal rendering of run identifiers -/

theorem digitChar_digit : ∀ m : Nat, m < 10 → (Nat.digitChar m).isDigit = true := by decide

theorem isDigit_ne (c : Char) (h : c.isDigit = true) :
    c ≠ '/' ∧ c ≠ '.' ∧ c ≠ '_' := by
  refine ⟨fun hc => ?_, fun hc => ?_, fun hc => ?_⟩ <;> subst hc <;> exact absurd h (by decide)

theorem toDigitsCore_digits : ∀ (fuel n : Nat) (ds : List Char),
    (∀ c ∈ ds, c.isDigit = true) → ∀ c ∈ Nat.toDigitsCore 10 fuel n ds, c.isDigit = true := by
  intro fuel
  induction fuel with
  | zero => intro n ds hds; simpa [Nat.toDigitsCore] using hds
  | succ f ih =>
    intro n ds hds c hc
    rw [Nat.toDigitsCore] at hc
    by_cases h0 : n / 10 = 0
    · rw [if_pos h0] at hc
      rcases List.mem_cons.1 hc with h | h
      · subst h; exact digitChar_digit _ (Nat.mod_lt _ (by norm_num))
      · exact hds c h
    · rw [if_neg h0] at hc
      refine ih (n / 10) _ ?_ c hc
      intro d hd
      rcases List.mem_cons.1 hd with h | h
      · subst h; exact digitChar_digit _ (Nat.mod_lt _ (by norm_num))
      · exact hds d h

theorem repr_digits (n : Nat) : ∀ c ∈ (Nat.repr n).data, c.isDigit = true := by
  intro c hc
  have h : (Nat.repr n).data = Nat.toDigitsCore 10 (n + 1) n [] := by
    simp [Nat.repr, Nat.toDigits, List.asString]
  rw [h] at hc
  exact toDigitsCore_digits (n + 1) n [] (by simp) c hc

theorem reprUnderscore_clean (n : Nat) :
    ∀ c ∈ (Nat.repr n ++ "_").data, c ≠ '/' ∧ c ≠ '.' := by
  intro c hc
  rw [String.data_append] at hc
  rcases List.mem_append.1 hc with h | h
  · have hd := repr_digits n c h
    exact ⟨(isDigit_ne c hd).1, (isDigit_ne c hd).2.1⟩
  · have h2 : c = '_' := by simpa using h
    subst h2
    exact ⟨by decide, by decide⟩

/-! ### Helper lemmas about joined paths -/

theorem str_append_cancel_left (s x y : String) (h : s ++ x = s ++ y) : x = y := by
  apply String.ext
  have h2 := congrArg String.data h
  rw [String.data_append, String.data_append] at h2
  exact List.append_cancel_left h2

theorem pyJoin_std (td n : String) (h1 : n.data.head? ≠ some '/') (h2 : td.data ≠ [])
    (h3 : td.data.getLast? ≠ some '/') : pyJoin td n = td ++ "/" ++ n := by
  unfold pyJoin
  rw [if_neg h1, if_neg h2, if_neg h3]

theorem underscore_split (a b : String) (r1 r2 : List Char)
    (ha : ∀ c ∈ a.data, c.isDigit = true) (hb : ∀ c ∈ b.data, c.isDigit = true)
    (hne : a ≠ b) :
    a.data ++ '_' :: r1 ≠ b.data ++ '_' :: r2 := by
  intro h
  have h2 := congrArg (List.takeWhile (fun c => decide (c ≠ '_'))) h
  have key : ∀ (s : String) (r : List Char), (∀ c ∈ s.data, c.isDigit = true) →
      (s.data ++ '_' :: r).takeWhile (fun c => decide (c ≠ '_')) = s.data := by
    intro s r hs
    rw [List.takeWhile_append_of_pos
      (by intro c hc; simpa using ((isDigit_ne c (hs c hc)).2.2))]
    simp [List.takeWhile_cons]
  rw [key a r1 ha, key b r2 hb] at h2
  exact hne (String.ext h2)

theorem head_ne_slash_of_digits (a base : String)
    (ha : ∀ c ∈ a.data, c.isDigit = true) :
    ((a ++ "_") ++ base).data.head? ≠ some '/' := by
  have hda : ((a ++ "_") ++ base).data = a.data ++ '_' :: base.data := by
    simp [String.data_append]
  rw [hda]
  rcases hc : a.data with _ | ⟨c, cs⟩
  · simp only [List.nil_append, List.head?_cons]
    intro hcontra
    have h : ('_' : Char) = '/' := by injection hcontra
    exact absurd h (by decide)
  · simp only [List.cons_append, List.head?_cons]
    intro hcontra
    have h : c = '/' := by injection hcontra
    exact (isDigit_ne c (ha c (by rw [hc]; simp))).1 h

theorem tempPath_ne_of_ne (a b td base : String)
    (ha : ∀ c ∈ a.data, c.isDigit = true) (hb : ∀ c ∈ b.data, c.isDigit = true)
    (hne : a ≠ b) :
    tempPath td (a ++ "_") base ≠ tempPath td (b ++ "_") base := by
  have hda : ((a ++ "_") ++ base).data = a.data ++ '_' :: base.data := by
    simp [String.data_append]
  have hdb : ((b ++ "_") ++ base).data = b.data ++ '_' :: base.data := by
    simp [String.data_append]
  have hsplit := underscore_split a b base.data base.data ha hb hne
  have hstr : (a ++ "_") ++ base ≠ (b ++ "_") ++ base := by
    intro h
    exact hsplit (by rw [← hda, ← hdb, h])
  unfold tempPath pyJoin
  rw [if_neg (head_ne_slash_of_digits a base ha), if_neg (head_ne_slash_of_digits b base hb)]
  by_cases h2 : td.data = []
  · rw [if_pos h2, if_pos h2]
    exact hstr
  · rw [if_neg h2, if_neg h2]
    by_cases h3 : td.data.getLast? = some '/'
    · rw [if_pos h3, if_pos h3]
      intro h
      exact hstr (str_append_cancel_left td _ _ h)
    · rw [if_neg h3, if_neg h3]
      intro h
      exact hstr (str_append_cancel_left (td ++ "/") _ _ h)

/-! ### Helper lemma for the birthday bound on 32-bit run identifiers -/

theorem descF_blocks (N a : Nat) : ∀ b : Nat,
    Nat.descFactorial N (a + b) ≤ Nat.descFactorial N a * (N - a) ^ b := by
  intro b
  induction b with
  | zero => simp
  | succ b ih =>
    have h1 : N - (a + b) ≤ N - a := Nat.sub_le_sub_left (Nat.le_add_right a b) N
    calc Nat.descFactorial N (a + (b + 1))
        = (N - (a + b)) * Nat.descFactorial N (a + b) := by
          rw [← Nat.add_assoc, Nat.descFactorial_succ]
      _ ≤ (N - a) * (Nat.descFactorial N a * (N - a) ^ b) := Nat.mul_le_mul h1 ih
      _ = Nat.descFactorial N a * (N - a) ^ (b + 1) := by ring

theorem two_mul_pow_lower (m d : Nat) : ∀ k : Nat,
    2 * m ^ (k + 2) + 2 * (k + 2) * d * m ^ (k + 1) + (k + 2) * (k + 1) * d ^ 2 * m ^ k ≤
      2 * (m + d) ^ (k + 2) := by
  intro k
  induction k with
  | zero => exact le_of_eq (by ring)
  | succ k ih =>
    calc 2 * m ^ (k + 1 + 2) + 2 * (k + 1 + 2) * d * m ^ (k + 1 + 1) +
          (k + 1 + 2) * (k + 1 + 1) * d ^ 2 * m ^ (k + 1)
        ≤ (2 * m ^ (k + 2) + 2 * (k + 2) * d * m ^ (k + 1) +
            (k + 2) * (k + 1) * d ^ 2 * m ^ k) * (m + d) := by
          have expand : (2 * m ^ (k + 2) + 2 * (k + 2) * d * m ^ (k + 1) +
              (k + 2) * (k + 1) * d ^ 2 * m ^ k) * (m + d) =
              2 * m ^ (k + 1 + 2) + 2 * (k + 1 + 2) * d * m ^ (k + 1 + 1) +
                (k + 1 + 2) * (k + 1 + 1) * d ^ 2 * m ^ (k + 1) +
                (k + 2) * (k + 1) * d ^ 3 * m ^ k := by ring
          rw [expand]
          exact Nat.le_add_right _ _
      _ ≤ (2 * (m + d) ^ (k + 2)) * (m + d) := Nat.mul_le_mul_right _ ih
      _ = 2 * (m + d) ^ (k + 1 + 2) := by ring

theorem two_mul_pow_lt (m d k : Nat) (hm : 0 < m)
    (hcoef : 2 * m ^ 2 < 2 * (k + 2) * d * m + (k + 2) * (k + 1) * d ^ 2) :
    2 * m ^ (k + 2) < (m + d) ^ (k + 2) := by
  have hb := two_mul_pow_lower m d k
  have hkpos : 0 < m ^ k := pow_pos hm k
  have hT : 2 * m ^ (k + 2) <
      2 * (k + 2) * d * m ^ (k + 1) + (k + 2) * (k + 1) * d ^ 2 * m ^ k := by
    calc 2 * m ^ (k + 2) = (2 * m ^ 2) * m ^ k := by ring
      _ < (2 * (k + 2) * d * m + (k + 2) * (k + 1) * d ^ 2) * m ^ k :=
          Nat.mul_lt_mul_of_lt_of_le hcoef (le_refl _) hkpos
      _ = 2 * (k + 2) * d * m ^ (k + 1) + (k + 2) * (k + 1) * d ^ 2 * m ^ k := by ring
  omega

theorem half_bound_symbolic (N y z w : Nat)
    (hyz : y * z ≤ w ^ 2)
    (hkey : 2 * w ^ 66666 < N ^ 66666) :
    2 * (N ^ 33334 * y ^ 33333 * z ^ 33333) < N ^ 100000 := by
  have hp1 : y ^ 33333 * z ^ 33333 ≤ (w ^ 2) ^ 33333 := by
    rw [← mul_pow]
    exact Nat.pow_le_pow_left hyz 33333
  have hp2 : (w ^ 2) ^ 33333 = w ^ 66666 := by rw [← pow_mul]
  have hN : 0 < N := by
    rcases Nat.eq_zero_or_pos N with h | h
    · subst h
      rw [zero_pow (by norm_num)] at hkey
      exact absurd hkey (Nat.not_lt_zero _)
    · exact h
  calc 2 * (N ^ 33334 * y ^ 33333 * z ^ 33333)
      = N ^ 33334 * (2 * (y ^ 33333 * z ^ 33333)) := by ring
    _ ≤ N ^ 33334 * (2 * (w ^ 2) ^ 33333) :=
        Nat.mul_le_mul_left _ (Nat.mul_le_mul_left _ hp1)
    _ = N ^ 33334 * (2 * w ^ 66666) := by rw [hp2]
    _ < N ^ 33334 * N ^ 66666 := mul_lt_mul_of_pos_left hkey (pow_pos hN 33334)
    _ = N ^ 100000 := by rw [← pow_add]

theorem midpoint_pow_lt : 2 * (4294917296 : Nat) ^ 66666 < 4294967296 ^ 66666 := by
  have h := two_mul_pow_lt 4294917296 50000 66664 (by norm_num) (by decide)
  rw [show (66664 + 2 : Nat) = 66666 from rfl,
    show (4294917296 + 50000 : Nat) = 4294967296 from rfl] at h
  exact h

/-! ### Claim C2 -/

theorem startsWithStr_fasta_fa (e : String) (h : startsWithStr e ".fasta" = true) :
    startsWithStr e ".fa" = true := by
  unfold startsWithStr at h ⊢
  rw [List.isPrefixOf_iff_prefix] at h ⊢
  exact List.IsPrefix.trans (by decide) h

/-- Claim C2, corrected.  The claim said the check passes exactly when the
extension is in the tag's set (BAM `.bam`, FASTQ `.fastq`/`.fq`, FASTA
`.fa`/`.fna`/`.fasta`, SAM `.sam`).  In the code only BAM and SAM are exact
comparisons; the FASTQ and FASTA checks are unanchored `re.match` calls, so
they pass exactly when the extension merely BEGINS with one of the patterns
(for FASTA the `.fasta` alternative is subsumed by `.fa`).  This theorem
characterises the implemented check for all four tags and every path. -/
theorem c2_format_check_semantics (p : String) :
    (formatCheck Format.BAM p = true ↔ pySplitextExt p = ".bam") ∧
    (formatCheck Format.SAM p = true ↔ pySplitextExt p = ".sam") ∧
    (formatCheck Format.FASTQ p = true ↔
      (startsWithStr (pySplitextExt p) ".fastq" = true ∨
        startsWithStr (pySplitextExt p) ".fq" = true)) ∧
    (formatCheck Format.FASTA p = true ↔
      (startsWithStr (pySplitextExt p) ".fa" = true ∨
        startsWithStr (pySplitextExt p) ".fna" = true)) := by
  refine ⟨by simp [formatCheck], by simp [formatCheck], by simp [formatCheck], ?_⟩
  constructor
  · intro h
    rcases (by simpa [formatCheck] using h : (_ ∨ _) ∨ _) with (h1 | h1) | h1
    · exact Or.inl h1
    · exact Or.inr h1
    · exact Or.inl (startsWithStr_fasta_fa _ h1)
  · intro h
    rcases h with h1 | h1 <;> simp [formatCheck, h1]

/-- Counterexample to claim C2 as stated: a path with extension `.fastq`,
which is outside the FASTA set `{.fa, .fna, .fasta}`, nevertheless passes the
FASTA check, because the unanchored pattern `\.((fa)|(fna)|(fasta))` matches
the leading `.fa` of `.fastq`. -/
theorem c2_counterexample :
    formatCheck Format.FASTA "ref.fastq" = true ∧
    pySplitextExt "ref.fastq" = ".fastq" ∧
    (".fastq" : String) ≠ ".fa" ∧ (".fastq" : String) ≠ ".fna" ∧
    (".fastq" : String) ≠ ".fasta" := by decide

/-! ### Claim C3 -/

/-- Claim C3, corrected.  The claim said the read-correction stage accepts a
cell type exactly for `haploid`/`diploid` and a match type exactly for
`edit`/`hamming`/`insdel`.  The code validates both with unanchored
`re.match`, so it accepts any string that BEGINS with one of the allowed
words; strings failing the prefix test are rejected with the corresponding
parameter-validation `ValueError` before any subprocess is launched (given a
read file that already passed the format and existence checks, which run
first). -/
theorem c3_enum_validation (td rf cell mt tStr mStr : String) (v : Bool)
    (isfile : String → Bool)
    (hf : formatCheck Format.FASTQ rf = true) (hex : isfile rf = true) :
    ((startsWithStr cell "haploid" = false ∧ startsWithStr cell "diploid" = false) →
      read_correction td rf cell mt v isfile tStr mStr =
        { result := Except.error "The cell type is not a valid value", procs := [] }) ∧
    ((startsWithStr cell "haploid" = true ∨ startsWithStr cell "diploid" = true) →
      (startsWithStr mt "edit" = false ∧ startsWithStr mt "hamming" = false ∧
        startsWithStr mt "insdel" = false) →
      read_correction td rf cell mt v isfile tStr mStr =
        { result := Except.error "The match type is not a valid value", procs := [] }) ∧
    ((startsWithStr cell "haploid" = true ∨ startsWithStr cell "diploid" = true) →
      (startsWithStr mt "edit" = true ∨ startsWithStr mt "hamming" = true ∨
        startsWithStr mt "insdel" = true) →
      (read_correction td rf cell mt v isfile tStr mStr).result =
        Except.ok (pyJoin td ("karect_" ++ pyBasename rf)) ∧
      (read_correction td rf cell mt v isfile tStr mStr).procs.map Invocation.argv =
        [["karect", "-correct", "-inputfile=" ++ rf, "-celltype=" ++ cell,
          "-matchtype=" ++ mt, "-threads=" ++ tStr, "-memory=" ++ mStr,
          "-resultdir=" ++ td, "-tempdir=" ++ td]]) := by
  refine ⟨?_, ?_, ?_⟩
  · intro h
    simp [read_correction, hf, hex, h.1, h.2]
  · intro h1 h2
    rcases h1 with h1 | h1 <;> simp [read_correction, hf, hex, h1, h2.1, h2.2.1, h2.2.2]
  · intro h1 h2
    rcases h1 with h1 | h1 <;> rcases h2 with h2 | h2 | h2 <;>
      simp [read_correction, hf, hex, h1, h2]

theorem c3_enum_validation_witness :
    read_correction "/tmp" "r.fq" "bogus" "edit" false (fun _ => true) "4" "8" =
      { result := Except.error "The cell type is not a valid value", procs := [] } ∧
    read_correction "/tmp" "r.fq" "haploid" "bogus" false (fun _ => true) "4" "8" =
      { result := Except.error "The match type is not a valid value", procs := [] } :=
  ⟨(c3_enum_validation "/tmp" "r.fq" "bogus" "edit" "4" "8" false (fun _ => true)
      (by decide) rfl).1 (by decide),
   (c3_enum_validation "/tmp" "r.fq" "haploid" "bogus" "4" "8" false (fun _ => true)
      (by decide) rfl).2.1 (by decide) (by decide)⟩

/-- Counterexample to claim C3 as stated: `diploidXYZ` and `editQQQ` are
outside the documented enumerations, yet the stage accepts them and launches
karect, because the validation only tests a leading match. -/
theorem c3_counterexample :
    ((read_correction "/tmp" "r.fq" "diploidXYZ" "editQQQ" false (fun _ => true) "4" "8").result =
      Except.ok "/tmp/karect_r.fq") ∧
    ((read_correction "/tmp" "r.fq" "diploidXYZ" "editQQQ" false
        (fun _ => true) "4" "8").procs.length = 1) ∧
    ("diploidXYZ" : String) ≠ "haploid" ∧ ("diploidXYZ" : String) ≠ "diploid" ∧
    ("editQQQ" : String) ≠ "edit" ∧ ("editQQQ" : String) ≠ "hamming" ∧
    ("editQQQ" : String) ≠ "insdel" := by decide

/-! ### Claim C6 -/

/-- Claim C6, confirmed.  For every stage function and every input path whose
extension fails that stage's format check (as implemented), the stage raises
the format-mismatch `ValueError` and performs zero subprocess invocations:
the path-string check runs before any subprocess call.  The consensus
formatter, which never launches a subprocess, likewise raises before touching
the filesystem. -/
theorem c6_format_gate (td rf ref pfxId cell mt tStr mStr : String) (v : Bool)
    (isfile : String → Bool) (content : List String) :
    (formatCheck Format.BAM rf = false →
      bam_to_fq td rf pfxId v =
        { result := Except.error "The read file is not in BAM format", procs := [] }) ∧
    (formatCheck Format.FASTQ rf = false →
      read_correction td rf cell mt v isfile tStr mStr =
        { result := Except.error "The read file is not in FASTQ format", procs := [] }) ∧
    (formatCheck Format.FASTQ rf = false →
      read_alignment td rf ref pfxId v tStr =
        { result := Except.error "The read file is not in FASTQ format", procs := [] }) ∧
    (formatCheck Format.FASTQ rf = true → formatCheck Format.FASTA ref = false →
      read_alignment td rf ref pfxId v tStr =
        { result := Except.error "The reference genome file is not in FASTA format",
          procs := [] }) ∧
    (formatCheck Format.SAM rf = false →
      sam_to_bam td rf pfxId v =
        { result := Except.error "The read file is not in SAM format", procs := [] }) ∧
    (formatCheck Format.BAM rf = false →
      sort_and_index td rf pfxId v tStr =
        { result := Except.error "The read file is not in BAM format", procs := [] }) ∧
    (formatCheck Format.BAM rf = false →
      call_variants td rf ref pfxId v =
        { result := Except.error "The read file is not in BAM format", procs := [] }) ∧
    (formatCheck Format.BAM rf = true → formatCheck Format.FASTA ref = false →
      call_variants td rf ref pfxId v =
        { result := Except.error "The reference genome file is not in FASTA format",
          procs := [] }) ∧
    (formatCheck Format.FASTA rf = false →
      format_consensus td rf pfxId content =
        Except.error "The consensus file is not in FASTA format") := by
  refine ⟨fun h => ?_, fun h => ?_, fun h => ?_, fun h1 h2 => ?_, fun h => ?_, fun h => ?_,
    fun h => ?_, fun h1 h2 => ?_, fun h => ?_⟩
  · simp [bam_to_fq, h]
  · simp [read_correction, h]
  · simp [read_alignment, h]
  · simp [read_alignment, h1, h2]
  · simp [sam_to_bam, h]
  · simp [sort_and_index, h]
  · simp [call_variants, h]
  · simp [call_variants, h1, h2]
  · simp [format_consensus, h]

theorem c6_format_gate_witness :
    bam_to_fq "/tmp" "reads.txt" "7_" false =
      { result := Except.error "The read file is not in BAM format", procs := [] } ∧
    read_alignment "/tmp" "r.fq" "ref.txt" "7_" false "4" =
      { result := Except.error "The reference genome file is not in FASTA format",
        procs := [] } ∧
    call_variants "/tmp" "sorted.bam" "ref.vcf" "7_" true =
      { result := Except.error "The reference genome file is not in FASTA format",
        procs := [] } ∧
    format_consensus "/tmp" "c.txt" "7_" [">h"] =
      Except.error "The consensus file is not in FASTA format" :=
  ⟨(c6_format_gate "/tmp" "reads.txt" "x" "7_" "haploid" "edit" "4" "8" false
      (fun _ => true) []).1 (by decide),
   (c6_format_gate "/tmp" "r.fq" "ref.txt" "7_" "haploid" "edit" "4" "8" false
      (fun _ => true) []).2.2.2.1 (by decide) (by decide),
   (c6_format_gate "/tmp" "sorted.bam" "ref.vcf" "7_" "haploid" "edit" "4" "8" true
      (fun _ => true) []).2.2.2.2.2.2.2.1 (by decide) (by decide),
   (c6_format_gate "/tmp" "c.txt" "x" "7_" "haploid" "edit" "4" "8" false
      (fun _ => true) [">h"]).2.2.2.2.2.2.2.2 (by decide)⟩

/-! ### Claim C7 -/

/-- Claim C7, confirmed.  For every FASTA-named input, the normalize stage
produces an output with exactly the same number of lines in the same order;
every line beginning with a `>` is copied unchanged and every other line is
uppercased.  In particular `>chr1` is unchanged and `acgtACGT` becomes
`ACGTACGT`. -/
theorem c7_normalize (td path pfxId : String) (content : List String)
    (h : formatCheck Format.FASTA path = true) :
    format_consensus td path pfxId content =
      Except.ok (tempPath td pfxId "formatted_consensus.fa", content.map formatLine) ∧
    (content.map formatLine).length = content.length ∧
    (∀ i (hi : i < content.length),
      (content.map formatLine).get ⟨i, by simpa using hi⟩ =
        (if startsWithStr (content.get ⟨i, hi⟩) ">" = true then content.get ⟨i, hi⟩
         else upperStr (content.get ⟨i, hi⟩))) ∧
    formatLine ">chr1" = ">chr1" ∧ formatLine "acgtACGT" = "ACGTACGT" := by
  refine ⟨by simp [format_consensus, h], by simp, ?_, by decide, by decide⟩
  intro i hi
  simp [List.get_eq_getElem, List.getElem_map, formatLine]

theorem c7_normalize_witness :
    format_consensus "/tmp" "c.fa" "7_" [">chr1", "acgtACGT"] =
      Except.ok ("/tmp/7_formatted_consensus.fa", [">chr1", "ACGTACGT"]) := by
  have h := (c7_normalize "/tmp" "c.fa" "7_" [">chr1", "acgtACGT"] (by decide)).1
  rw [h]
  decide

/-! ### Claim C9 -/

/-- Claim C9, confirmed.  With a digit run identifier and a well-formed temp
directory (nonempty, not ending in a slash — the shape `tempfile.gettempdir()`
returns), the temp artifact namer deterministically produces
`<tempdir>/<run_id>_<artifact_name>.<ext>`, repeated calls with the same
arguments produce the same path (the namer is a pure function of them), and
the paths the conversion and sorting stages return have exactly that shape. -/
theorem c9_temp_naming (td rid base rf rf2 tStr : String) (v : Bool)
    (hr : ∀ c ∈ rid.data, c.isDigit = true)
    (h2 : td.data ≠ []) (h3 : td.data.getLast? ≠ some '/')
    (hrf : formatCheck Format.BAM rf = true) (hrf2 : formatCheck Format.BAM rf2 = true) :
    tempPath td (rid ++ "_") base = td ++ "/" ++ rid ++ "_" ++ base ∧
    tempPath td (rid ++ "_") base = tempPath td (rid ++ "_") base ∧
    (bam_to_fq td rf (rid ++ "_") v).result =
      Except.ok (td ++ "/" ++ rid ++ "_" ++ "bam_to_fq_out.fq") ∧
    (sort_and_index td rf2 (rid ++ "_") v tStr).result =
      Except.ok (td ++ "/" ++ rid ++ "_" ++ "sorted_reads.bam") := by
  have key : ∀ b : String, tempPath td (rid ++ "_") b = td ++ "/" ++ rid ++ "_" ++ b := by
    intro b
    unfold tempPath
    rw [pyJoin_std td _ (head_ne_slash_of_digits rid b hr) h2 h3]
    apply String.ext
    simp [String.data_append]
  refine ⟨key base, rfl, ?_, ?_⟩
  · unfold bam_to_fq
    rw [hrf]
    simp only [if_true]
    exact congrArg Except.ok (key _)
  · unfold sort_and_index
    rw [hrf2]
    simp only [if_true]
    exact congrArg Except.ok (key _)

theorem c9_temp_naming_witness :
    tempPath "/tmp" ("123" ++ "_") "aligned_reads.sam" =
      "/tmp" ++ "/" ++ "123" ++ "_" ++ "aligned_reads.sam" ∧
    (bam_to_fq "/tmp" "r.bam" ("123" ++ "_") false).result =
      Except.ok ("/tmp" ++ "/" ++ "123" ++ "_" ++ "bam_to_fq_out.fq") := by
  have h := c9_temp_naming "/tmp" "123" "aligned_reads.sam" "r.bam" "s.bam" "4" false
    (by decide) (by decide) (by decide) (by decide) (by decide)
  exact ⟨h.1, h.2.2.1⟩

/-! ### Claim C10 -/

theorem errSink_ne_userStdout (v : Bool) : errSink v ≠ Sink.userStdout := by
  cases v <;> simp [errSink]

/-- Claim C10, confirmed.  For every stage function, with all other inputs
held fixed, the stage's result (output path or error) and the argv vector of
every subprocess it invokes are identical whether the verbose flag is true or
false: verbosity only selects stream destinations. -/
theorem c10_verbose_noninterference (td rf ref pfxId cell mt tStr mStr : String)
    (isfile : String → Bool) :
    ((bam_to_fq td rf pfxId true).result = (bam_to_fq td rf pfxId false).result ∧
      (bam_to_fq td rf pfxId true).procs.map Invocation.argv =
        (bam_to_fq td rf pfxId false).procs.map Invocation.argv) ∧
    ((read_correction td rf cell mt true isfile tStr mStr).result =
        (read_correction td rf cell mt false isfile tStr mStr).result ∧
      (read_correction td rf cell mt true isfile tStr mStr).procs.map Invocation.argv =
        (read_correction td rf cell mt false isfile tStr mStr).procs.map Invocation.argv) ∧
    ((read_alignment td rf ref pfxId true tStr).result =
        (read_alignment td rf ref pfxId false tStr).result ∧
      (read_alignment td rf ref pfxId true tStr).procs.map Invocation.argv =
        (read_alignment td rf ref pfxId false tStr).procs.map Invocation.argv) ∧
    ((sam_to_bam td rf pfxId true).result = (sam_to_bam td rf pfxId false).result ∧
      (sam_to_bam td rf pfxId true).procs.map Invocation.argv =
        (sam_to_bam td rf pfxId false).procs.map Invocation.argv) ∧
    ((sort_and_index td rf pfxId true tStr).result =
        (sort_and_index td rf pfxId false tStr).result ∧
      (sort_and_index td rf pfxId true tStr).procs.map Invocation.argv =
        (sort_and_index td rf pfxId false tStr).procs.map Invocation.argv) ∧
    ((call_variants td rf ref pfxId true).result = (call_variants td rf ref pfxId false).result ∧
      (call_variants td rf ref pfxId true).procs.map Invocation.argv =
        (call_variants td rf ref pfxId false).procs.map Invocation.argv) := by
  refine ⟨⟨?_, ?_⟩, ⟨?_, ?_⟩, ⟨?_, ?_⟩, ⟨?_, ?_⟩, ⟨?_, ?_⟩, ⟨?_, ?_⟩⟩
  all_goals
    first
      | (unfold bam_to_fq
         by_cases h1 : formatCheck Format.BAM rf = true <;> simp [h1])
      | (unfold read_correction
         by_cases h1 : formatCheck Format.FASTQ rf = true <;>
           by_cases h2 : isfile rf = true <;>
             by_cases h3 : (startsWithStr cell "haploid" || startsWithStr cell "diploid") = true <;>
               by_cases h4 : (startsWithStr mt "edit" || startsWithStr mt "hamming" ||
                 startsWithStr mt "insdel") = true <;>
                 simp [h1, h2, h3, h4])
      | (unfold read_alignment
         by_cases h1 : formatCheck Format.FASTQ rf = true <;>
           by_cases h2 : formatCheck Format.FASTA ref = true <;> simp [h1, h2])
      | (unfold sam_to_bam
         by_cases h1 : formatCheck Format.SAM rf = true <;> simp [h1])
      | (unfold sort_and_index
         by_cases h1 : formatCheck Format.BAM rf = true <;> simp [h1])
      | (unfold call_variants
         by_cases h1 : formatCheck Format.BAM rf = true <;>
           by_cases h2 : formatCheck Format.FASTA ref = true <;> simp [h1, h2])

/-! ### Claim C4 -/

/-- Claim C4, corrected.  The claim said every tool's stdout and stderr go to
the pipeline's stderr under the verbose flag and to the discard sink
otherwise, apart from the stream carrying the stage's semantic output.  In
the code only each tool's STDERR follows that rule — except `bcftools call`,
whose stderr is always discarded.  Tool stdout is handled per tool: it is the
semantic output only for `samtools bam2fq` and `bowtie2` (redirected into the
artifact file); it follows the verbosity rule for `karect` and
`bcftools call`; and it is unconditionally discarded for `bowtie2-build`,
`samtools view`, `samtools sort`, `samtools index`, `samtools mpileup`,
`bcftools index` and `bcftools consensus`, even in verbose mode.  No stream
is ever routed to the pipeline's own stdout. -/
theorem c4_stream_routing (td bamF fqF samF sortedF refF pfxId cell mt tStr mStr : String)
    (v : Bool) (isfile : String → Bool)
    (h1 : formatCheck Format.BAM bamF = true)
    (h2 : formatCheck Format.FASTQ fqF = true) (h2b : isfile fqF = true)
    (h2c : (startsWithStr cell "haploid" || startsWithStr cell "diploid") = true)
    (h2d : (startsWithStr mt "edit" || startsWithStr mt "hamming" ||
      startsWithStr mt "insdel") = true)
    (h3 : formatCheck Format.FASTA refF = true)
    (h4 : formatCheck Format.SAM samF = true)
    (h5 : formatCheck Format.BAM sortedF = true) :
    (bam_to_fq td bamF pfxId v).procs.map (fun i => (i.stdout, i.stderr)) =
      [(Sink.file (tempPath td pfxId "bam_to_fq_out.fq"), errSink v)] ∧
    (read_correction td fqF cell mt v isfile tStr mStr).procs.map
        (fun i => (i.stdout, i.stderr)) =
      [(errSink v, errSink v)] ∧
    (read_alignment td fqF refF pfxId v tStr).procs.map (fun i => (i.stdout, i.stderr)) =
      [(Sink.devnull, errSink v),
       (Sink.file (tempPath td pfxId "aligned_reads.sam"), errSink v)] ∧
    (sam_to_bam td samF pfxId v).procs.map (fun i => (i.stdout, i.stderr)) =
      [(Sink.devnull, errSink v)] ∧
    (sort_and_index td sortedF pfxId v tStr).procs.map (fun i => (i.stdout, i.stderr)) =
      [(Sink.devnull, errSink v), (Sink.devnull, errSink v)] ∧
    (call_variants td sortedF refF pfxId v).procs.map (fun i => (i.stdout, i.stderr)) =
      [(Sink.devnull, errSink v), (errSink v, Sink.devnull),
       (Sink.devnull, errSink v), (Sink.devnull, errSink v)] ∧
    (∀ inv ∈ (bam_to_fq td bamF pfxId v).procs,
      inv.stdout ≠ Sink.userStdout ∧ inv.stderr ≠ Sink.userStdout) ∧
    (∀ inv ∈ (read_correction td fqF cell mt v isfile tStr mStr).procs,
      inv.stdout ≠ Sink.userStdout ∧ inv.stderr ≠ Sink.userStdout) ∧
    (∀ inv ∈ (read_alignment td fqF refF pfxId v tStr).procs,
      inv.stdout ≠ Sink.userStdout ∧ inv.stderr ≠ Sink.userStdout) ∧
    (∀ inv ∈ (sam_to_bam td samF pfxId v).procs,
      inv.stdout ≠ Sink.userStdout ∧ inv.stderr ≠ Sink.userStdout) ∧
    (∀ inv ∈ (sort_and_index td sortedF pfxId v tStr).procs,
      inv.stdout ≠ Sink.userStdout ∧ inv.stderr ≠ Sink.userStdout) ∧
    (∀ inv ∈ (call_variants td sortedF refF pfxId v).procs,
      inv.stdout ≠ Sink.userStdout ∧ inv.stderr ≠ Sink.userStdout) := by
  have hs := errSink_ne_userStdout v
  refine ⟨by simp [bam_to_fq, h1], by simp [read_correction, h2, h2b, h2c, h2d],
    by simp [read_alignment, h2, h3], by simp [sam_to_bam, h4],
    by simp [sort_and_index, h5], by simp [call_variants, h5, h3], ?_, ?_, ?_, ?_, ?_, ?_⟩
  · intro inv hinv
    simp [bam_to_fq, h1] at hinv
    subst hinv
    exact ⟨by simp, hs⟩
  · intro inv hinv
    simp [read_correction, h2, h2b, h2c, h2d] at hinv
    subst hinv
    exact ⟨hs, hs⟩
  · intro inv hinv
    simp [read_alignment, h2, h3] at hinv
    rcases hinv with hinv | hinv <;> subst hinv
    · exact ⟨by simp, hs⟩
    · exact ⟨by simp, hs⟩
  · intro inv hinv
    simp [sam_to_bam, h4] at hinv
    subst hinv
    exact ⟨by simp, hs⟩
  · intro inv hinv
    simp [sort_and_index, h5] at hinv
    rcases hinv with hinv | hinv <;> subst hinv <;> exact ⟨by simp, hs⟩
  · intro inv hinv
    simp [call_variants, h5, h3] at hinv
    rcases hinv with hinv | hinv | hinv | hinv <;> subst hinv
    · exact ⟨by simp, hs⟩
    · exact ⟨hs, by simp⟩
    · exact ⟨by simp, hs⟩
    · exact ⟨by simp, hs⟩

theorem c4_stream_routing_witness :
    (sam_to_bam "/tmp" "a.sam" "7_" true).procs.map (fun i => (i.stdout, i.stderr)) =
      [(Sink.devnull, errSink true)] ∧
    (call_variants "/tmp" "s.bam" "r.fa" "7_" true).procs.map (fun i => (i.stdout, i.stderr)) =
      [(Sink.devnull, errSink true), (errSink true, Sink.devnull),
       (Sink.devnull, errSink true), (Sink.devnull, errSink true)] := by
  have h := c4_stream_routing "/tmp" "b.bam" "r.fq" "a.sam" "s.bam" "r.fa" "7_"
    "haploid" "edit" "4" "8" true (fun _ => true) (by decide) (by decide) (by decide)
    (by decide) (by decide) (by decide) (by decide) (by decide)
  exact ⟨h.2.2.2.1, h.2.2.2.2.2.1⟩

/-- Counterexample to claim C4 as stated: with the verbose flag set,
`samtools view`'s stdout — which is not the stream carrying the stage's
semantic output, since the BAM artifact is written via the `-bo` flag — is
routed to the discard sink, not to the pipeline's stderr; and `bcftools
call`'s stderr is discarded even in verbose mode. -/
theorem c4_counterexample :
    (sam_to_bam "/tmp" "a.sam" "7_" true).procs.map Invocation.stdout = [Sink.devnull] ∧
    Sink.devnull ≠ errSink true ∧
    (call_variants "/tmp" "s.bam" "r.fa" "7_" true).procs.map Invocation.stderr =
      [errSink true, Sink.devnull, errSink true, errSink true] := by decide

/-! ### Claim C8 -/

/-- Claim C8, confirmed.  The process exits 0 on full success; a user
interrupt exits 1 printing only an empty message; every `ValueError`
(validation failure) exits 1 with its message; every environment failure
exits 1; and every external-tool failure — a `CalledProcessError` whose argv
is one a stage actually launches — maps to a stage-specific message and exit
status 1. -/
theorem c8_exit_codes :
    exitOf Outcome.success = (0, none) ∧
    exitOf Outcome.interrupt = (1, some "") ∧
    (∀ m, exitOf (Outcome.valueError m) = (1, some m)) ∧
    (exitOf Outcome.environmentError).1 = 1 ∧
    (∀ td rf pfxId v, ∀ inv ∈ (bam_to_fq td rf pfxId v).procs,
      (exitOf (Outcome.processError inv.argv)).1 = 1) ∧
    (∀ td rf cell mt v isfile tStr mStr,
      ∀ inv ∈ (read_correction td rf cell mt v isfile tStr mStr).procs,
      (exitOf (Outcome.processError inv.argv)).1 = 1) ∧
    (∀ td rf ref pfxId v tStr, ∀ inv ∈ (read_alignment td rf ref pfxId v tStr).procs,
      (exitOf (Outcome.processError inv.argv)).1 = 1) ∧
    (∀ td rf pfxId v, ∀ inv ∈ (sam_to_bam td rf pfxId v).procs,
      (exitOf (Outcome.processError inv.argv)).1 = 1) ∧
    (∀ td rf pfxId v tStr, ∀ inv ∈ (sort_and_index td rf pfxId v tStr).procs,
      (exitOf (Outcome.processError inv.argv)).1 = 1) ∧
    (∀ td rf ref pfxId v, ∀ inv ∈ (call_variants td rf ref pfxId v).procs,
      (exitOf (Outcome.processError inv.argv)).1 = 1) := by
  refine ⟨rfl, rfl, fun m => rfl, rfl, ?_, ?_, ?_, ?_, ?_, ?_⟩
  · intro td rf pfxId v inv hinv
    by_cases h : formatCheck Format.BAM rf = true
    · simp [bam_to_fq, h] at hinv
      subst hinv
      simp [exitOf, cmdMessage]
    · simp [bam_to_fq, h] at hinv
  · intro td rf cell mt v isfile tStr mStr inv hinv
    by_cases h1 : formatCheck Format.FASTQ rf = true <;>
      by_cases h2 : isfile rf = true <;>
        by_cases h3 : (startsWithStr cell "haploid" || startsWithStr cell "diploid") = true <;>
          by_cases h4 : (startsWithStr mt "edit" || startsWithStr mt "hamming" ||
            startsWithStr mt "insdel") = true <;>
            simp [read_correction, h1, h2, h3, h4] at hinv
    subst hinv
    simp [exitOf, cmdMessage]
  · intro td rf ref pfxId v tStr inv hinv
    by_cases h1 : formatCheck Format.FASTQ rf = true <;>
      by_cases h2 : formatCheck Format.FASTA ref = true <;>
        simp [read_alignment, h1, h2] at hinv
    rcases hinv with hinv | hinv <;> subst hinv <;> simp [exitOf, cmdMessage]
  · intro td rf pfxId v inv hinv
    by_cases h : formatCheck Format.SAM rf = true
    · simp [sam_to_bam, h] at hinv
      subst hinv
      simp [exitOf, cmdMessage]
    · simp [sam_to_bam, h] at hinv
  · intro td rf pfxId v tStr inv hinv
    by_cases h : formatCheck Format.BAM rf = true
    · simp [sort_and_index, h] at hinv
      rcases hinv with hinv | hinv <;> subst hinv <;> simp [exitOf, cmdMessage]
    · simp [sort_and_index, h] at hinv
  · intro td rf ref pfxId v inv hinv
    by_cases h1 : formatCheck Format.BAM rf = true <;>
      by_cases h2 : formatCheck Format.FASTA ref = true <;>
        simp [call_variants, h1, h2] at hinv
    rcases hinv with hinv | hinv | hinv | hinv <;> subst hinv <;> simp [exitOf, cmdMessage]

theorem c8_exit_codes_witness :
    exitOf Outcome.interrupt = (1, some "") ∧
    (exitOf (Outcome.processError (Invocation.argv
      { argv := ["samtools", "bam2fq", "r.bam"],
        stdout := Sink.file (tempPath "/tmp" "7_" "bam_to_fq_out.fq"),
        stderr := errSink false }))).1 = 1 :=
  ⟨c8_exit_codes.2.1,
   c8_exit_codes.2.2.2.2.1 "/tmp" "r.bam" "7_" false _ (by decide)⟩

/-! ### Claim C5 -/

/-- Counterexample to claim C5 as stated: run identifiers are 32-bit
(`random.getrandbits(32)`), and a batch of 100,000 such identifiers being
duplicate-free is not overwhelmingly probable — fewer than HALF of the
`runIdCount ^ 100000` equally likely batches are duplicate-free (birthday
bound; the true duplicate probability is about 69%).  100000 ≤ 2^32, so this
is not a pigeonhole artifact. -/
theorem c5_counterexample :
    100000 ≤ runIdCount ∧
    2 * collisionFreeBatches 100000 < runIdCount ^ 100000 := by
  have e1 : collisionFreeBatches 100000 = Nat.descFactorial (2 ^ 32) 100000 := rfl
  have e2 : runIdCount ^ 100000 = (2 ^ 32 : Nat) ^ 100000 := rfl
  have e3 : runIdCount = 2 ^ 32 := rfl
  rw [e1, e2, e3]
  refine ⟨by decide, ?_⟩
  have h1 := descF_blocks (2 ^ 32) 66667 33333
  have h2 := descF_blocks (2 ^ 32) 33334 33333
  simp only [show (66667 + 33333 : Nat) = 100000 from rfl,
    show (33334 + 33333 : Nat) = 66667 from rfl] at h1 h2
  have h3 : Nat.descFactorial (2 ^ 32) 33334 ≤ (2 ^ 32) ^ 33334 :=
    Nat.descFactorial_le_pow _ _
  have h4 : Nat.descFactorial (2 ^ 32) 100000 ≤
      (2 ^ 32) ^ 33334 * (2 ^ 32 - 33334) ^ 33333 * (2 ^ 32 - 66667) ^ 33333 := by
    calc Nat.descFactorial (2 ^ 32) 100000
        ≤ Nat.descFactorial (2 ^ 32) 66667 * (2 ^ 32 - 66667) ^ 33333 := h1
      _ ≤ (Nat.descFactorial (2 ^ 32) 33334 * (2 ^ 32 - 33334) ^ 33333) *
            (2 ^ 32 - 66667) ^ 33333 := Nat.mul_le_mul_right _ h2
      _ ≤ ((2 ^ 32) ^ 33334 * (2 ^ 32 - 33334) ^ 33333) * (2 ^ 32 - 66667) ^ 33333 :=
            Nat.mul_le_mul_right _ (Nat.mul_le_mul_right _ h3)
  rw [show (2 ^ 32 - 33334 : Nat) = 4294933962 from by decide,
    show (2 ^ 32 - 66667 : Nat) = 4294900629 from by decide] at h4
  rw [show (2 ^ 32 : Nat) = 4294967296 from by decide] at h4 ⊢
  have big := half_bound_symbolic 4294967296 4294933962 4294900629 4294917296
    (by decide) midpoint_pow_lt
  calc 2 * Nat.descFactorial (4294967296 : Nat) 100000
      ≤ 2 * ((4294967296 : Nat) ^ 33334 * 4294933962 ^ 33333 * 4294900629 ^ 33333) :=
        Nat.mul_le_mul_left 2 h4
    _ < (4294967296 : Nat) ^ 100000 := big

/-- Claim C5, corrected.  What does hold: two runs whose rendered 32-bit
identifiers differ always get distinct temp artifact paths for the same
logical name (so distinct identifiers never collide), and a duplicate-free
batch of 100,000 identifiers exists.  What fails is the claimed overwhelming
probability of no duplicates at batch size 100,000, per the
counterexample. -/
theorem c5_run_id_uniqueness :
    (∀ r1 r2 : Nat, Nat.repr r1 ≠ Nat.repr r2 → ∀ td base,
      tempPath td (Nat.repr r1 ++ "_") base ≠ tempPath td (Nat.repr r2 ++ "_") base) ∧
    0 < collisionFreeBatches 100000 := by
  constructor
  · intro r1 r2 hne td base
    exact tempPath_ne_of_ne (Nat.repr r1) (Nat.repr r2) td base
      (repr_digits r1) (repr_digits r2) hne
  · apply Nat.pos_of_ne_zero
    intro h
    have e1 : collisionFreeBatches 100000 = Nat.descFactorial (2 ^ 32) 100000 := rfl
    rw [e1, Nat.descFactorial_eq_zero_iff_lt] at h
    exact absurd h (by decide)

theorem c5_run_id_uniqueness_witness :
    tempPath "/tmp" (Nat.repr 12 ++ "_") "consensus.fa" ≠
      tempPath "/tmp" (Nat.repr 7 ++ "_") "consensus.fa" ∧
    0 < collisionFreeBatches 100000 :=
  ⟨c5_run_id_uniqueness.1 12 7 (by decide) "/tmp" "consensus.fa",
   c5_run_id_uniqueness.2⟩

/-! ### Claim C1 -/

/-- Claim C1, corrected.  The reference genome's format is only checked
inside the alignment stage, so when it fails (extension not beginning with
`.fa` or `.fna`), the run does fail with the format-mismatch `ValueError`
"The reference genome file is not in FASTA format" — but only AFTER the
conversion stage has already invoked `samtools bam2fq` (with correction
enabled, karect would also have run).  The pipeline does not validate the
reference before starting subprocesses. -/
theorem c1_ref_checked_after_conversion (td out : String) (rid : Nat) (inp ref : String)
    (v : Bool) (isfile : String → Bool) (tStr mStr : String) (content : List String)
    (h1 : isfile ref = true) (h2 : isfile inp = true)
    (h3 : formatCheck Format.BAM inp = true)
    (h4 : formatCheck Format.FASTA ref = false) :
    runMain td rid ⟨some ref, some inp, some out, true, "n", "equal", v⟩ isfile tStr mStr
        content =
      (Outcome.valueError "The reference genome file is not in FASTA format",
       [{ argv := ["samtools", "bam2fq", inp],
          stdout := Sink.file (tempPath td (Nat.repr rid ++ "_") "bam_to_fq_out.fq"),
          stderr := errSink v }]) := by
  have hx : pySplitextExt (tempPath td (Nat.repr rid ++ "_")
      ("bam_to_fq_out" ++ "." ++ "fq")) = "." ++ "fq" :=
    pySplitextExt_tempPath td (Nat.repr rid ++ "_") "bam_to_fq_out" "fq"
      (reprUnderscore_clean rid) (by decide) (by decide) (by decide)
  rw [show ("bam_to_fq_out" ++ "." ++ "fq" : String) = "bam_to_fq_out.fq" from rfl,
    show ("." ++ "fq" : String) = ".fq" from rfl] at hx
  have hfq : formatCheck Format.FASTQ
      (tempPath td (Nat.repr rid ++ "_") "bam_to_fq_out.fq") = true := by
    simp only [formatCheck]
    rw [hx]
    decide
  simp [runMain, andThen, bam_to_fq, read_alignment, h1, h2, h3, h4, hfq]

theorem c1_ref_checked_after_conversion_witness :
    runMain "/tmp" 7 ⟨some "ref.txt", some "reads.bam", some "out.fa", true, "n", "equal",
        false⟩ (fun _ => true) "4" "8" [] =
      (Outcome.valueError "The reference genome file is not in FASTA format",
       [{ argv := ["samtools", "bam2fq", "reads.bam"],
          stdout := Sink.file (tempPath "/tmp" (Nat.repr 7 ++ "_") "bam_to_fq_out.fq"),
          stderr := errSink false }]) :=
  c1_ref_checked_after_conversion "/tmp" "out.fa" 7 "reads.bam" "ref.txt" false
    (fun _ => true) "4" "8" [] rfl rfl (by decide) (by decide)

/-- Counterexample to claim C1 as stated: invoked with the reference path
`ref.fastq` — a FASTQ extension, i.e. not a FASTA extension — the run does
NOT fail with a format-mismatch error before any subprocess: it completes
successfully (the unanchored FASTA pattern accepts `.fastq`), and its first
subprocess, `samtools bam2fq`, is invoked. -/
theorem c1_counterexample :
    (runMain "/tmp" 7 ⟨some "ref.fastq", some "reads.bam", none, true, "n", "equal", false⟩
      (fun _ => true) "4" "8" []).1 = Outcome.success ∧
    ((runMain "/tmp" 7 ⟨some "ref.fastq", some "reads.bam", none, true, "n", "equal", false⟩
      (fun _ => true) "4" "8" []).2.map Invocation.argv).head? =
      some ["samtools", "bam2fq", "reads.bam"] ∧
    formatCheck Format.FASTA "ref.fastq" = true := by decide

end Grapple
